import Mathlib

/-!
Shallow embedding of the admin dashboard core (src/src/app/page.tsx):
the sync-engine snapshot callbacks, the projection state, the two-step
resolution workflow (toggleResolveStatus, sendNotificationToUser,
handleResponseSubmit), the moderation action (handleBlockUser) and the
community chart projection (communityChartData).

The remote realtime store is modelled as maps from paths to records:
reports/<id>, the blocked flag at users/<uid>, and notification records
at users/<uid>/notifications/<reportId>.  Remote rejection of a mutation
is an input flag to each operation (the store's access-control decision
is external).  Date.now() is an explicit `now : Nat` argument.
console.error / alert are presentation-side logging and are not modelled.
-/

/-- The stored value payload of a report record, i.e. childSnapshot.val().
The stored payload may itself contain a field named id (the TS code spreads
the payload over an object literal whose first field is id), so that
possibility is kept as an Option field. -/
structure ReportPayload where
  id? : Option String
  createdAt : Nat
  description : String
  email : String
  matterType : String
  name : String
  phone : String
  resolvedAt? : Option Nat
  response? : Option String
  status : String
  userId : String
deriving Repr, DecidableEq

/-- A materialized report as held in the in-memory projection (interface
Report in the source, with id populated from the collection key). -/
structure Report where
  id : String
  createdAt : Nat
  description : String
  email : String
  matterType : String
  name : String
  phone : String
  resolvedAt? : Option Nat
  response? : Option String
  status : String
  userId : String
deriving Repr, DecidableEq

/-- A notification record written at users/<uid>/notifications/<reportId>. -/
structure Notification where
  type : String
  message : String
  response : String
  createdAt : Nat
  read : Bool
deriving Repr, DecidableEq

/-- One entry of the community chart data (communityChartData element). -/
structure ChartEntry where
  name : String
  reports : Nat
deriving Repr, DecidableEq

/-- The component's reactive state: reports list, the three stats fields,
loading, error slot, selected report and draft response text. -/
structure DashState where
  reports : List Report
  totalUsers : Nat
  totalReports : Nat
  resolvedReports : Nat
  loading : Bool
  error : Option String
  selectedReport : Option Report
  responseText : String
deriving Repr, DecidableEq

/-- The remote realtime store, as maps from paths to records: report
payloads at reports/<id>, the blocked flag at users/<uid>, notification
records at users/<uid>/notifications/<reportId>.  Paths are unique keys
in the store, so each map is a function from the key to an optional
record. -/
structure RemoteDB where
  reports : String → Option ReportPayload
  userBlocked : String → Option Bool
  notifications : String × String → Option Notification

/-- Initial component state (the useState initializers). -/
def initialDashState : DashState :=
  { reports := []
    totalUsers := 0
    totalReports := 0
    resolvedReports := 0
    loading := true
    error := none
    selectedReport := none
    responseText := "" }

/-- JS object spread semantics of the literal in the reports callback:
const report = (object with field id set to childSnapshot.key, then the
payload spread over it).  A field named id present in the payload is
spread after the explicit id field and therefore overrides it; when the
payload has no id field, the collection key remains. -/
def materializeReport (key : String) (v : ReportPayload) : Report :=
  { id := v.id?.getD key
    createdAt := v.createdAt
    description := v.description
    email := v.email
    matterType := v.matterType
    name := v.name
    phone := v.phone
    resolvedAt? := v.resolvedAt?
    response? := v.response?
    status := v.status
    userId := v.userId }

/-- The reports stream onValue success callback: iterates the snapshot's
children in order, materializes each, replaces the reports list with the
new array and sets totalReports to its length (other stats fields are
kept by the functional setStats update). -/
def reportsCallback (snap : List (String × ReportPayload)) (s : DashState) : DashState :=
  let reportsData := snap.map (fun kv => materializeReport kv.1 kv.2)
  { s with reports := reportsData, totalReports := reportsData.length }

/-- The reports stream onValue error callback: logs and sets the single
engine-level error slot. -/
def reportsErrorCallback (s : DashState) : DashState :=
  { s with error := some "Unable to fetch reports. Please check your permissions." }

/-- The users stream onValue success callback: sets totalUsers to the
snapshot size. -/
def usersCallback (size : Nat) (s : DashState) : DashState :=
  { s with totalUsers := size }

/-- The users stream onValue error callback: only console.error, no state
update. -/
def usersErrorCallback (s : DashState) : DashState :=
  s

/-- The resolved-reports query onValue success callback: sets
resolvedReports to the snapshot size. -/
def resolvedCallback (size : Nat) (s : DashState) : DashState :=
  { s with resolvedReports := size }

/-- The resolved-reports query onValue error callback: only console.error,
no state update. -/
def resolvedErrorCallback (s : DashState) : DashState :=
  s

/-- JS truthiness of the expression (response or-else empty string): an
absent argument and the empty string are both falsy, so both yield the
default. -/
def jsOrString (v : Option String) (dflt : String) : String :=
  match v with
  | none => dflt
  | some t => if t = "" then dflt else t

/-- The Firebase update call of toggleResolveStatus: merges status,
response and resolvedAt into the record at reports/<reportId>.  The
remote store would create a sparse record at an absent path; the total
ReportPayload shape cannot represent a sparse record, so the model keeps
an absent path absent and theorems about updates assume the report
exists. -/
def updateReport (db : RemoteDB) (reportId : String) (newStatus newResponse : String)
    (now : Nat) : RemoteDB :=
  { db with reports := fun k =>
      if k = reportId then
        (db.reports k).map (fun r =>
          { r with status := newStatus, response? := some newResponse, resolvedAt? := some now })
      else db.reports k }

/-- toggleResolveStatus(reportId, currentStatus, response?): issues the
update with the toggled status, response or-else empty string, and
resolvedAt stamped to now.  A rejected mutation is caught inside the
function (it never rethrows): the catch sets the engine-level error slot
and the function returns normally either way. -/
def toggleResolveStatus (db : RemoteDB) (s : DashState) (reportId currentStatus : String)
    (response : Option String) (now : Nat) (rejected : Bool) : RemoteDB × DashState :=
  if rejected then
    (db, { s with error := some "Unable to update report status. Please check your permissions." })
  else
    (updateReport db reportId (if currentStatus = "resolved" then "pending" else "resolved")
      (jsOrString response "") now, s)

/-- The notification record literal written by sendNotificationToUser:
a synthesized message referencing the report id, the admin response, the
current time and read set to false. -/
def notificationRecord (reportId response : String) (now : Nat) : Notification :=
  { type := "report_response"
    message := "Your report (ID: " ++ reportId ++ ") has been responded to."
    response := response
    createdAt := now
    read := false }

/-- sendNotificationToUser(userId, reportId, response): set() of the full
notification record at users/<userId>/notifications/<reportId>; set
replaces whatever record is at that exact path.  A rejected write is
caught, logged and rethrown as the error with message
Failed to send notification. -/
def sendNotificationToUser (db : RemoteDB) (userId reportId response : String)
    (now : Nat) (rejected : Bool) : Except String RemoteDB :=
  if rejected then
    Except.error "Failed to send notification."
  else
    Except.ok { db with notifications := fun p =>
      if p = (userId, reportId) then some (notificationRecord reportId response now)
      else db.notifications p }

/-- handleResponseSubmit: guarded on a selected report; awaits
toggleResolveStatus (which never throws) then sendNotificationToUser;
on success resets the modal (selectedReport to none, responseText to
empty); the catch only ever receives the notification failure and sets
the error slot.  updateRejected / notifRejected are the remote store's
accept-or-reject decisions for the two remote calls. -/
def handleResponseSubmit (s : DashState) (db : RemoteDB) (now : Nat)
    (updateRejected notifRejected : Bool) : DashState × RemoteDB :=
  match s.selectedReport with
  | none => (s, db)
  | some sel =>
    let step1 := toggleResolveStatus db s sel.id sel.status (some s.responseText) now updateRejected
    match sendNotificationToUser step1.1 sel.userId sel.id s.responseText now notifRejected with
    | Except.ok db2 => ({ step1.2 with selectedReport := none, responseText := "" }, db2)
    | Except.error _ =>
        ({ step1.2 with error := some "Failed to submit response. Please try again." }, step1.1)

/-- handleBlockUser(userId): update of the blocked flag to true at
users/<userId>; a rejected mutation is caught and sets the engine-level
error slot (the success-path alert is presentation only). -/
def handleBlockUser (db : RemoteDB) (s : DashState) (userId : String)
    (rejected : Bool) : RemoteDB × DashState :=
  if rejected then
    (db, { s with error := some "Unable to block user. Please check your permissions." })
  else
    ({ db with userBlocked := fun u => if u = userId then some true else db.userBlocked u }, s)

/-- communityChartData: the pure derived chart projection over the current
reports list. -/
def communityChartData (reports : List Report) : List ChartEntry :=
  (reports.filter (fun r => r.matterType = "Community")).map
    (fun r => { name := r.name, reports := 1 })

/-!  Concrete fixtures used by counterexamples and witnesses. -/

/-- A sample stored report payload with no payload field named id. -/
def samplePayload : ReportPayload :=
  { id? := none
    createdAt := 10
    description := "d"
    email := "e"
    matterType := "Community"
    name := "n"
    phone := "p"
    resolvedAt? := none
    response? := none
    status := "pending"
    userId := "u1" }

/-- A stored payload that does contain a field named id. -/
def payloadWithId : ReportPayload :=
  { samplePayload with id? := some "payload-id" }

/-- A sample remote store holding one pending report at reports/r1. -/
def sampleDB : RemoteDB :=
  { reports := fun k => if k = "r1" then some samplePayload else none
    userBlocked := fun _ => none
    notifications := fun _ => none }

/-- The materialized report at key r1. -/
def sampleSelected : Report := materializeReport "r1" samplePayload

/-- A dashboard state with report r1 selected and a draft response. -/
def sampleState : DashState :=
  { initialDashState with selectedReport := some sampleSelected, responseText := "resp" }

/-- The store after a first successful notification write for (u1, r1). -/
def dbAfterFirst : RemoteDB :=
  { sampleDB with notifications := fun p =>
      if p = ("u1", "r1") then some (notificationRecord "r1" "a" 1)
      else sampleDB.notifications p }

/-- The store after a second successful notification write for (u1, r1). -/
def dbAfterSecond : RemoteDB :=
  { dbAfterFirst with notifications := fun p =>
      if p = ("u1", "r1") then some (notificationRecord "r1" "b" 2)
      else dbAfterFirst.notifications p }

/-!  Claim theorems. -/

/-- Claim C1, counterexample: on a snapshot whose single child stores a
payload field named id, the materialized record's id is the payload
value, not the collection key, refuting that the collection key takes
precedence. -/
theorem reports_id_payload_overrides_key_cex :
    (reportsCallback [("key-1", payloadWithId)] initialDashState).reports.map Report.id
      = ["payload-id"]
    ∧ "payload-id" ≠ "key-1" := by
  exact ⟨rfl, by decide⟩

/-- Claim C1 as amended: when no stored payload of the snapshot contains
a field named id, every materialized record's id equals its collection
key; a payload field named id, when present, overrides the key. -/
theorem reports_id_eq_key_of_no_payload_id (snap : List (String × ReportPayload))
    (s : DashState) (h : ∀ kv ∈ snap, kv.2.id? = none) :
    (reportsCallback snap s).reports.map Report.id = snap.map Prod.fst := by
  simp only [reportsCallback, List.map_map]
  induction snap with
  | nil => rfl
  | cons kv tl ih =>
      have hkv : kv.2.id? = none := h kv (List.mem_cons_self kv tl)
      have htl : ∀ kv' ∈ tl, kv'.2.id? = none := fun kv' h' => h kv' (List.mem_cons_of_mem kv h')
      simp only [List.map_cons, Function.comp_apply, materializeReport, hkv, Option.getD_none]
      exact congrArg (List.cons kv.1) (ih htl)

/-- Witness for the amended claim C1 at a concrete snapshot. -/
theorem reports_id_eq_key_witness :
    (reportsCallback [("key-1", samplePayload)] initialDashState).reports.map Report.id
      = [("key-1", samplePayload)].map Prod.fst :=
  reports_id_eq_key_of_no_payload_id [("key-1", samplePayload)] initialDashState (by decide)

/-- Claim C4, counterexample: a fault on the users-count stream and a
fault on the resolved-count stream leave the engine-level error slot
unset, refuting that every one of the three subscriptions sets it. -/
theorem count_stream_faults_leave_error_unset_cex :
    (usersErrorCallback initialDashState).error = none
    ∧ (resolvedErrorCallback initialDashState).error = none :=
  ⟨rfl, rfl⟩

/-- Claim C4 as amended: only the reports subscription's fault sets the
engine-level error slot; faults on the users-count and resolved-count
streams are log-only and leave the state unchanged. -/
theorem only_reports_fault_sets_error (s : DashState) :
    (reportsErrorCallback s).error
      = some "Unable to fetch reports. Please check your permissions."
    ∧ usersErrorCallback s = s
    ∧ resolvedErrorCallback s = s :=
  ⟨rfl, rfl, rfl⟩

/-- Claim C5: every reports snapshot fully replaces the in-memory report
list with the materialization of the snapshot (independent of the old
list) and sets totalReports to the new list's length, so the length
invariant holds after every such update; the other stats fields are
unchanged. -/
theorem reports_snapshot_replaces_list (snap : List (String × ReportPayload)) (s : DashState) :
    (reportsCallback snap s).reports = snap.map (fun kv => materializeReport kv.1 kv.2)
    ∧ (reportsCallback snap s).reports.length = (reportsCallback snap s).totalReports
    ∧ (reportsCallback snap s).totalUsers = s.totalUsers
    ∧ (reportsCallback snap s).resolvedReports = s.resolvedReports := by
  refine ⟨rfl, ?_, rfl, rfl⟩
  simp [reportsCallback]

/-- Claim C7: the community chart projection is the pure map over exactly
the reports with matterType Community, in list order, one entry per
surviving report carrying its name, and every entry has weight one. -/
theorem communityChartData_spec (rs : List Report) :
    (communityChartData rs).length
      = (rs.filter (fun r => r.matterType = "Community")).length
    ∧ (communityChartData rs).map ChartEntry.name
      = (rs.filter (fun r => r.matterType = "Community")).map Report.name
    ∧ (communityChartData rs).all (fun e => e.reports == 1) = true := by
  refine ⟨by simp [communityChartData], by simp [communityChartData], ?_⟩
  simp only [communityChartData, List.all_eq_true, List.mem_map, List.mem_filter,
    decide_eq_true_eq, beq_iff_eq, forall_exists_index, and_imp]
  intro e r hmem hmt he
  rw [← he]

/-- Claim C10: with no selected report, the resolution submit operation
returns the state and the remote store unchanged, whatever the remote
store would have decided for the two calls: no mutation, no notification,
no error, no field change. -/
theorem handleResponseSubmit_no_selection_noop (s : DashState) (db : RemoteDB) (now : Nat)
    (updateRejected notifRejected : Bool) (h : s.selectedReport = none) :
    handleResponseSubmit s db now updateRejected notifRejected = (s, db) := by
  simp [handleResponseSubmit, h]

/-- Witness for claim C10 at the initial state, which has no selection. -/
theorem handleResponseSubmit_no_selection_noop_witness :
    handleResponseSubmit initialDashState sampleDB 5 true true = (initialDashState, sampleDB) :=
  handleResponseSubmit_no_selection_noop initialDashState sampleDB 5 true true rfl

/-- Claim C2, counterexample: with report r1 selected, Step A rejected
and the notification write accepted, a notification record appears at
users/u1/notifications/r1 even though the status mutation did not
persist, refuting that the workflow aborts before Step B. -/
theorem stepA_rejected_notification_written_cex :
    ((handleResponseSubmit sampleState sampleDB 42 true false).2.notifications ("u1", "r1")
      = some (notificationRecord "r1" "resp" 42))
    ∧ (handleResponseSubmit sampleState sampleDB 42 true false).2.reports "r1"
      = some samplePayload
    ∧ (handleResponseSubmit sampleState sampleDB 42 true false).1.error
      = some "Unable to update report status. Please check your permissions." := by
  refine ⟨?_, ?_, ?_⟩ <;> rfl

/-- Claim C2 as amended: when Step A's remote mutation is rejected, the
failure is caught inside Step A (the engine-level error slot is set and
the report record is left unchanged) and the workflow does not abort:
Step B still runs, and when the remote accepts it the notification record
is written at users/<targetUserId>/notifications/<reportId>. -/
theorem stepA_rejected_proceeds_to_stepB (s : DashState) (db : RemoteDB) (sel : Report)
    (now : Nat) (h : s.selectedReport = some sel) :
    ((handleResponseSubmit s db now true false).2.notifications (sel.userId, sel.id)
      = some (notificationRecord sel.id s.responseText now))
    ∧ (handleResponseSubmit s db now true false).2.reports = db.reports
    ∧ (handleResponseSubmit s db now true false).1.error
      = some "Unable to update report status. Please check your permissions." := by
  simp [handleResponseSubmit, h, toggleResolveStatus, sendNotificationToUser]

/-- Witness for the amended claim C2 at the sample state and store. -/
theorem stepA_rejected_proceeds_to_stepB_witness :
    ((handleResponseSubmit sampleState sampleDB 42 true false).2.notifications
        (sampleSelected.userId, sampleSelected.id)
      = some (notificationRecord sampleSelected.id sampleState.responseText 42))
    ∧ (handleResponseSubmit sampleState sampleDB 42 true false).2.reports = sampleDB.reports
    ∧ (handleResponseSubmit sampleState sampleDB 42 true false).1.error
      = some "Unable to update report status. Please check your permissions." :=
  stepA_rejected_proceeds_to_stepB sampleState sampleDB sampleSelected 42 rfl

/-- Claim C3: on an accepted Step A mutation of an existing report, the
status is the pure toggle of currentStatus (resolved goes to pending,
anything else goes to resolved, independent of the response text), the
response field is set to the given text or to the empty string when none
is given, and resolvedAt is stamped with the current time in both toggle
directions; the projection state is untouched by the success path. -/
theorem toggleResolveStatus_success_toggle (db : RemoteDB) (s : DashState)
    (reportId currentStatus : String) (response : Option String) (now : Nat)
    (r : ReportPayload) (h : db.reports reportId = some r) :
    (toggleResolveStatus db s reportId currentStatus response now false).1.reports reportId
      = some { r with
          status := if currentStatus = "resolved" then "pending" else "resolved"
          response? := some (jsOrString response "")
          resolvedAt? := some now }
    ∧ jsOrString none "" = ""
    ∧ (∀ t : String, t ≠ "" → jsOrString (some t) "" = t)
    ∧ (toggleResolveStatus db s reportId currentStatus response now false).2 = s := by
  refine ⟨?_, rfl, ?_, rfl⟩
  · simp [toggleResolveStatus, updateReport, h]
  · intro t ht
    simp [jsOrString, ht]

/-- Witness for claim C3: toggling the pending report r1 with response
text ok at time 7 yields a resolved record carrying that response. -/
theorem toggleResolveStatus_success_toggle_witness :
    ((toggleResolveStatus sampleDB initialDashState "r1" "pending" (some "ok") 7 false).1.reports
        "r1"
      = some { samplePayload with
          status := if "pending" = "resolved" then "pending" else "resolved"
          response? := some (jsOrString (some "ok") "")
          resolvedAt? := some 7 })
    ∧ (toggleResolveStatus sampleDB initialDashState "r1" "pending" (some "ok") 7 false).2
      = initialDashState :=
  ⟨(toggleResolveStatus_success_toggle sampleDB initialDashState "r1" "pending" (some "ok") 7
      samplePayload rfl).1,
   (toggleResolveStatus_success_toggle sampleDB initialDashState "r1" "pending" (some "ok") 7
      samplePayload rfl).2.2.2⟩

/-- Helper: the JS expression (t or-else empty string) is t itself for
every string t, since the only falsy string is the empty string. -/
theorem jsOrString_some_empty_default (t : String) : jsOrString (some t) "" = t := by
  unfold jsOrString
  by_cases h : t = "" <;> simp [h]

/-- Claim C6: when Step A is accepted and Step B's notification write is
rejected, the report keeps its new status, response and resolvedAt from
Step A (no rollback), no notification is written, the failure is surfaced
in the error slot, and the state is distinct from an overall success: the
failing run keeps the report selected while the succeeding run clears the
selection. -/
theorem stepB_failure_keeps_stepA (s : DashState) (db : RemoteDB) (sel : Report)
    (r : ReportPayload) (now : Nat) (h1 : s.selectedReport = some sel)
    (h2 : db.reports sel.id = some r) :
    (handleResponseSubmit s db now false true).2.reports sel.id
      = some { r with
          status := if sel.status = "resolved" then "pending" else "resolved"
          response? := some s.responseText
          resolvedAt? := some now }
    ∧ (handleResponseSubmit s db now false true).2.notifications = db.notifications
    ∧ (handleResponseSubmit s db now false true).1.error
      = some "Failed to submit response. Please try again."
    ∧ (handleResponseSubmit s db now false true).1.selectedReport = some sel
    ∧ (handleResponseSubmit s db now false false).1.selectedReport = none := by
  refine ⟨?_, ?_, ?_, ?_, ?_⟩
  · simp [handleResponseSubmit, h1, toggleResolveStatus, sendNotificationToUser, updateReport,
      h2, jsOrString_some_empty_default]
  · simp [handleResponseSubmit, h1, toggleResolveStatus, sendNotificationToUser, updateReport]
  · simp [handleResponseSubmit, h1, toggleResolveStatus, sendNotificationToUser]
  · simp [handleResponseSubmit, h1, toggleResolveStatus, sendNotificationToUser]
  · simp [handleResponseSubmit, h1, toggleResolveStatus, sendNotificationToUser]

/-- Witness for claim C6 at the sample state and store. -/
theorem stepB_failure_keeps_stepA_witness :
    ((handleResponseSubmit sampleState sampleDB 42 false true).2.reports sampleSelected.id
      = some { samplePayload with
          status := if sampleSelected.status = "resolved" then "pending" else "resolved"
          response? := some sampleState.responseText
          resolvedAt? := some 42 })
    ∧ (handleResponseSubmit sampleState sampleDB 42 false true).2.notifications
      = sampleDB.notifications
    ∧ (handleResponseSubmit sampleState sampleDB 42 false true).1.error
      = some "Failed to submit response. Please try again."
    ∧ (handleResponseSubmit sampleState sampleDB 42 false true).1.selectedReport
      = some sampleSelected
    ∧ (handleResponseSubmit sampleState sampleDB 42 false false).1.selectedReport = none :=
  stepB_failure_keeps_stepA sampleState sampleDB sampleSelected samplePayload 42 rfl rfl

/-- Claim C8: an accepted blockUser sets the blocked flag to true at
users/<userId>, a second accepted application yields exactly the same
store and state as the first (idempotence), and the success path never
touches the error slot (the state is returned unchanged on both calls). -/
theorem handleBlockUser_idempotent (db : RemoteDB) (s : DashState) (userId : String) :
    handleBlockUser (handleBlockUser db s userId false).1 (handleBlockUser db s userId false).2
        userId false
      = handleBlockUser db s userId false
    ∧ (handleBlockUser db s userId false).1.userBlocked userId = some true
    ∧ (handleBlockUser db s userId false).2 = s := by
  refine ⟨?_, by simp [handleBlockUser], rfl⟩
  simp only [handleBlockUser, Bool.false_eq_true, if_false]
  refine Prod.ext ?_ rfl
  show RemoteDB.mk _ _ _ = RemoteDB.mk _ _ _
  congr 1
  funext u
  by_cases h : u = userId <;> simp [h]

/-- Claim C9: an accepted Step B write stores, at the path derived from
the pair of target user and report, the record with the synthesized
message referencing the report id, the supplied response text, the
current time and read false, leaving every other path untouched; and a
second accepted write for the same pair overwrites the first record (the
store afterwards holds the newest record at that path and is elsewhere
identical to the original store, so no duplicate accumulates). -/
theorem sendNotification_success_spec (db : RemoteDB) (uid rid t1 t2 : String)
    (n1 n2 : Nat) (db1 db2 : RemoteDB)
    (h1 : sendNotificationToUser db uid rid t1 n1 false = Except.ok db1)
    (h2 : sendNotificationToUser db1 uid rid t2 n2 false = Except.ok db2) :
    db1.notifications (uid, rid) = some (notificationRecord rid t1 n1)
    ∧ (∀ p, p ≠ (uid, rid) → db1.notifications p = db.notifications p)
    ∧ db2.notifications (uid, rid) = some (notificationRecord rid t2 n2)
    ∧ (∀ p, p ≠ (uid, rid) → db2.notifications p = db.notifications p)
    ∧ notificationRecord rid t1 n1
      = { type := "report_response"
          message := "Your report (ID: " ++ rid ++ ") has been responded to."
          response := t1
          createdAt := n1
          read := false } := by
  simp only [sendNotificationToUser, Bool.false_eq_true, if_false, Except.ok.injEq] at h1 h2
  subst h1
  subst h2
  refine ⟨by simp, fun p hp => by simp [hp], by simp, fun p hp => by simp [hp], rfl⟩

/-- Witness for claim C9: two successive accepted notification writes for
the pair (u1, r1) on the sample store. -/
theorem sendNotification_success_witness :
    dbAfterFirst.notifications ("u1", "r1") = some (notificationRecord "r1" "a" 1)
    ∧ dbAfterSecond.notifications ("u1", "r1") = some (notificationRecord "r1" "b" 2) :=
  ⟨(sendNotification_success_spec sampleDB "u1" "r1" "a" "b" 1 2 dbAfterFirst dbAfterSecond
      rfl rfl).1,
   (sendNotification_success_spec sampleDB "u1" "r1" "a" "b" 1 2 dbAfterFirst dbAfterSecond
      rfl rfl).2.2.1⟩
